import Mathlib

/-!
Verification of the voice-cli repository (two scripts: the ElevenLabs-enabled
`voice-cli` v1.0.1 and the earlier text-only variant v1.0.0) against its
natural-language specification.

The JavaScript sources are shallowly embedded: side effects (console output,
spawned shell commands, file-system reads/writes, HTTPS requests, audio
playback) are recorded in an explicit `World` state threaded through the
translated functions; ambient facts (the OS platform, the home directory,
exit statuses of spawned commands, the remote API response, the wall clock,
the state of the config file) are an `Env` parameter.  Machine-level parts
(MD5, UTF-8) are implemented outright so that every definition is executable.
-/

set_option maxRecDepth 100000

namespace VoiceCli

/-! ## MD5 (as used by Node `crypto.createHash('md5')` in the source)

The cache key of a spoken text is `md5(utf8(text))` rendered as lowercase hex
and truncated to 10 characters (`part_000` line 158).  MD5 is implemented
here from its public definition (RFC 1321) over `Nat` with explicit
reductions modulo 2^32. -/

def M32 : Nat := 4294967296

/-- UTF-8 encoding of one character (Node's default encoding for
`hash.update(string)`). -/
def utf8Bytes (c : Char) : List Nat :=
  let n := c.toNat
  if n < 128 then [n]
  else if n < 2048 then [192 ||| (n >>> 6), 128 ||| (n &&& 63)]
  else if n < 65536 then
    [224 ||| (n >>> 12), 128 ||| ((n >>> 6) &&& 63), 128 ||| (n &&& 63)]
  else
    [240 ||| (n >>> 18), 128 ||| ((n >>> 12) &&& 63),
     128 ||| ((n >>> 6) &&& 63), 128 ||| (n &&& 63)]

/-- UTF-8 bytes of a string. -/
def strBytes (s : String) : List Nat := s.data.flatMap utf8Bytes

/-- Left-rotation of a 32-bit word. -/
def rotl32 (x s : Nat) : Nat := ((x * 2 ^ s) % M32) ||| (x / 2 ^ (32 - s))

/-- The 64 MD5 sine-derived round constants. -/
def mdK : List Nat :=
  [0xd76aa478, 0xe8c7b756, 0x242070db, 0xc1bdceee,
   0xf57c0faf, 0x4787c62a, 0xa8304613, 0xfd469501,
   0x698098d8, 0x8b44f7af, 0xffff5bb1, 0x895cd7be,
   0x6b901122, 0xfd987193, 0xa679438e, 0x49b40821,
   0xf61e2562, 0xc040b340, 0x265e5a51, 0xe9b6c7aa,
   0xd62f105d, 0x02441453, 0xd8a1e681, 0xe7d3fbc8,
   0x21e1cde6, 0xc33707d6, 0xf4d50d87, 0x455a14ed,
   0xa9e3e905, 0xfcefa3f8, 0x676f02d9, 0x8d2a4c8a,
   0xfffa3942, 0x8771f681, 0x6d9d6122, 0xfde5380c,
   0xa4beea44, 0x4bdecfa9, 0xf6bb4b60, 0xbebfbc70,
   0x289b7ec6, 0xeaa127fa, 0xd4ef3085, 0x04881d05,
   0xd9d4d039, 0xe6db99e5, 0x1fa27cf8, 0xc4ac5665,
   0xf4292244, 0x432aff97, 0xab9423a7, 0xfc93a039,
   0x655b59c3, 0x8f0ccc92, 0xffeff47d, 0x85845dd1,
   0x6fa87e4f, 0xfe2ce6e0, 0xa3014314, 0x4e0811a1,
   0xf7537e82, 0xbd3af235, 0x2ad7d2bb, 0xeb86d391]

/-- The 64 MD5 per-round left-rotation amounts. -/
def mdS : List Nat :=
  [7, 12, 17, 22, 7, 12, 17, 22, 7, 12, 17, 22, 7, 12, 17, 22,
   5, 9, 14, 20, 5, 9, 14, 20, 5, 9, 14, 20, 5, 9, 14, 20,
   4, 11, 16, 23, 4, 11, 16, 23, 4, 11, 16, 23, 4, 11, 16, 23,
   6, 10, 15, 21, 6, 10, 15, 21, 6, 10, 15, 21, 6, 10, 15, 21]

/-- MD5 round function (complement on 32 bits is xor with 2^32 - 1). -/
def mdF (i b c d : Nat) : Nat :=
  if i < 16 then (b &&& c) ||| ((b ^^^ 4294967295) &&& d)
  else if i < 32 then (d &&& b) ||| ((d ^^^ 4294967295) &&& c)
  else if i < 48 then b ^^^ c ^^^ d
  else c ^^^ (b ||| (d ^^^ 4294967295))

/-- MD5 message-word index schedule. -/
def mdG (i : Nat) : Nat :=
  if i < 16 then i
  else if i < 32 then (5 * i + 1) % 16
  else if i < 48 then (3 * i + 5) % 16
  else (7 * i) % 16

/-- The four 32-bit words of the MD5 running state. -/
structure MDState where
  a : Nat
  b : Nat
  c : Nat
  d : Nat
deriving DecidableEq

def md5Start : MDState := ⟨0x67452301, 0xefcdab89, 0x98badcfe, 0x10325476⟩

/-- One of the 64 MD5 rounds on a 16-word chunk `m`. -/
def mdStep (m : List Nat) (st : MDState) (i : Nat) : MDState :=
  let f := (mdF i st.b st.c st.d + st.a + mdK.getD i 0 + m.getD (mdG i) 0) % M32
  ⟨st.d, (st.b + rotl32 f (mdS.getD i 0)) % M32, st.b, st.c⟩

/-- Process one 64-byte chunk (given as 16 little-endian words). -/
def processChunk (m : List Nat) (st0 : MDState) : MDState :=
  let st := (List.range 64).foldl (mdStep m) st0
  ⟨(st0.a + st.a) % M32, (st0.b + st.b) % M32,
   (st0.c + st.c) % M32, (st0.d + st.d) % M32⟩

/-- MD5 padding: a 1-bit, zeros to 56 mod 64 bytes, then the bit length as
64 bits little-endian. -/
def md5Pad (msg : List Nat) : List Nat :=
  let len := msg.length
  let zeros := (119 - len % 64) % 64
  msg ++ [128] ++ List.replicate zeros 0 ++
    ((List.range 8).map fun i => (8 * len / 2 ^ (8 * i)) % 256)

/-- Group bytes into 32-bit little-endian words. -/
def bytesToWords : List Nat → List Nat
  | b0 :: b1 :: b2 :: b3 :: rest =>
      (b0 + 256 * b1 + 65536 * b2 + 16777216 * b3) :: bytesToWords rest
  | _ => []

/-- Split a byte list into 64-byte chunks (structural recursion on a fuel
bound so that the definition reduces inside the kernel). -/
def chunksGo : Nat → List Nat → List (List Nat)
  | 0, _ => []
  | _, [] => []
  | fuel + 1, x :: rest => ((x :: rest).take 64) :: chunksGo fuel ((x :: rest).drop 64)

def chunks64 (l : List Nat) : List (List Nat) := chunksGo l.length l

/-- Little-endian byte rendering of a 32-bit word. -/
def wordBytes (w : Nat) : List Nat :=
  [w % 256, w / 256 % 256, w / 65536 % 256, w / 16777216 % 256]

/-- The 16-byte MD5 digest of a byte sequence. -/
def md5Bytes (msg : List Nat) : List Nat :=
  let fin := (chunks64 (md5Pad msg)).foldl
    (fun st chunk => processChunk (bytesToWords chunk) st) md5Start
  wordBytes fin.a ++ wordBytes fin.b ++ wordBytes fin.c ++ wordBytes fin.d

/-- Lowercase hex digit. -/
def hexChar (n : Nat) : Char :=
  if n < 10 then Char.ofNat (48 + n) else Char.ofNat (87 + n)

/-- Two lowercase hex digits of a byte. -/
def byteHex (b : Nat) : List Char := [hexChar (b / 16 % 16), hexChar (b % 16)]

/-- The cache key of a text: `crypto.createHash('md5').update(text)
.digest('hex').substring(0, 10)` (`part_000` line 158). -/
def cacheKeyChars (text : String) : List Char :=
  ((md5Bytes (strBytes text)).flatMap byteHex).take 10

def cacheKey (text : String) : String := String.mk (cacheKeyChars text)

/-! ## JS string normalization

`executeVoiceCommand` normalizes its input with
`commandText.toLowerCase().trim()` (`part_000` line 349, `part_001` line
211).  Both are modelled directly: ASCII case mapping, and trimming of the
whitespace characters that occur in this setting. -/

/-- Whitespace for the purposes of JS `String.prototype.trim`. -/
def isJsSpace (c : Char) : Bool := c == ' ' || c == '\t' || c == '\n' || c == '\r'

/-- ASCII lowercasing of one character (JS `toLowerCase`). -/
def lowerChar (c : Char) : Char :=
  if 65 ≤ c.toNat ∧ c.toNat ≤ 90 then Char.ofNat (c.toNat + 32) else c

/-- JS `s.toLowerCase()`. -/
def jsToLower (s : String) : String := String.mk (s.data.map lowerChar)

/-- JS `s.toLowerCase().trim()`: the normalization applied to every command
input before registry lookup. -/
def normalize (s : String) : String :=
  String.mk ((((s.data.map lowerChar).dropWhile isJsSpace).reverse.dropWhile
    isJsSpace).reverse)

/-! ## The observable world and the environment

`World` records everything the scripts do: console lines, shell commands run
through the generic `executeCommand` helper (`execd`), shell commands run by
the audio player (`spawned`), audio files handed to the player (`played`),
texts sent to the ElevenLabs API (`netRequests`), texts passed to
`speakResponse` (`spoken` — instrumentation only), the file system (an
association list where the most recent write shadows older entries, plus a
directory list), and a clock-read counter (`ticks`).

`Env` supplies the ambient facts: `process.platform`, `os.homedir()`, the
architecture and Node version shown by `showSystemInfo`, the exit status and
error message of each spawned command, the ElevenLabs response
(status code and body bytes) per request text, the wall-clock strings at
each clock read, and the state of the config file. -/

structure Config where
  voiceEnabled : Option Bool := none
  elevenLabsApiKey : Option String := none
  voiceId : Option String := none
deriving DecidableEq

/-- Outcome of trying to load `~/.voice-cli-config.json`: the file is absent,
present but unreadable/unparseable (JSON.parse throws), or parses to a
config. -/
inductive ConfigFileState where
  | absent
  | invalid
  | valid (c : Config)
deriving DecidableEq

structure Env where
  platform : String
  home : String
  arch : String
  nodeVersion : String
  execOk : String → Bool
  execErrMsg : String → String
  api : String → Nat × String
  timeAt : Nat → String
  isoAt : Nat → String
  configFile : ConfigFileState
  parseErrMsg : String

structure World where
  files : List (String × String) := []
  dirs : List String := []
  output : List String := []
  execd : List String := []
  spawned : List String := []
  played : List String := []
  netRequests : List String := []
  spoken : List String := []
  ticks : Nat := 0
deriving DecidableEq

/-- One `console.log` call. -/
def log (w : World) (s : String) : World := { w with output := w.output ++ [s] }

/-- `fs.existsSync`. -/
def existsSync (w : World) (p : String) : Bool :=
  (w.files.lookup p).isSome || w.dirs.contains p

/-- `fs.writeFileSync` (the new entry shadows any older one under
`List.lookup`). -/
def writeFile (p content : String) (w : World) : World :=
  { w with files := (p, content) :: w.files }

/-- Result of an `async` JS function: normal completion or a thrown error. -/
inductive JsOutcome where
  | ok (success : Bool)
  | thrown (msg : String)
deriving DecidableEq

/-! ## Fixed paths and platform helpers (`part_000` lines 23-132) -/

def VERSION : String := "1.0.1"

def DEFAULT_VOICE_ID : String := "21m00Tcm4TlvDq8ikWAM"

def CONFIG_FILE (env : Env) : String := env.home ++ "/.voice-cli-config.json"

def CACHE_DIR (env : Env) : String := env.home ++ "/.voice-cli-cache"

def isWindows (env : Env) : Bool := env.platform == "win32"

def isMac (env : Env) : Bool := env.platform == "darwin"

def getDownloadsPath (env : Env) : String := env.home ++ "/Downloads"

def getDocumentsPath (env : Env) : String := env.home ++ "/Documents"

def getDesktopPath (env : Env) : String := env.home ++ "/Desktop"

def getTextEditor (env : Env) : String :=
  if isWindows env then "notepad"
  else if isMac env then "TextEdit"
  else "gedit"

/-! ## Command execution functions (`part_000` lines 255-333, identical in
`part_001` lines 117-195) -/

/-- The generic `exec`-and-report helper `executeCommand`. -/
def executeCommand (command successMessage : String) (env : Env) (w : World) :
    World × Bool :=
  let w := { w with execd := w.execd ++ [command] }
  if env.execOk command then
    (log w ("✅ " ++ successMessage), true)
  else
    (log w ("❌ Error: " ++ env.execErrMsg command), false)

def openBrowser (url : String) (env : Env) (w : World) : World × Bool :=
  let command :=
    if isWindows env then "start " ++ url
    else if isMac env then "open " ++ url
    else "xdg-open " ++ url
  executeCommand command
    ("Browser opened" ++ (if url == "" then "" else " to " ++ url)) env w

def openTerminal (directory : String) (env : Env) (w : World) : World × Bool :=
  let command :=
    if isWindows env then "start cmd /k cd /d \"" ++ directory ++ "\""
    else if isMac env then "open -a Terminal \"" ++ directory ++ "\""
    else "gnome-terminal --working-directory=\"" ++ directory ++ "\""
  executeCommand command ("Terminal opened in " ++ directory) env w

/-- The platform-conditional shell command `openFolder` builds. -/
def openFolderCommand (env : Env) (folderPath : String) : String :=
  if isWindows env then "explorer \"" ++ folderPath ++ "\""
  else if isMac env then "open \"" ++ folderPath ++ "\""
  else "xdg-open \"" ++ folderPath ++ "\""

/-- `openFolder`: proactive existence check, then spawn the platform open
command. -/
def openFolder (folderPath : String) (env : Env) (w : World) : World × Bool :=
  if !(existsSync w folderPath) then
    (log w ("❌ Folder not found: " ++ folderPath), false)
  else
    executeCommand (openFolderCommand env folderPath)
      ("Opened folder: " ++ folderPath) env w

def openApplication (appName : String) (env : Env) (w : World) : World × Bool :=
  let command :=
    if isWindows env then "start \"\" \"" ++ appName ++ "\""
    else if isMac env then "open -a \"" ++ appName ++ "\""
    else jsToLower appName
  executeCommand command ("Launched " ++ appName) env w

/-- `showTime` reads the clock (`new Date()`) at each invocation and prints
it; the tick counter advances so that later reads may differ. -/
def showTime (env : Env) (w : World) : World × Bool :=
  ({ log w ("🕐 Current time: " ++ env.timeAt w.ticks) with ticks := w.ticks + 1 },
   true)

def showSystemInfo (env : Env) (w : World) : World × Bool :=
  let w := log w "💻 System Information:"
  let w := log w ("   Platform: " ++ env.platform)
  let w := log w ("   Architecture: " ++ env.arch)
  let w := log w ("   Node.js: " ++ env.nodeVersion)
  (log w ("   Home: " ++ env.home), true)

/-! ## Actions

Each registry entry's `execute` closure is represented as a first-order tag;
`runAction` is the evaluation of those closures. -/

inductive Folder where
  | downloads
  | documents
  | desktop
deriving DecidableEq

def folderPathOf (f : Folder) (env : Env) : String :=
  match f with
  | .downloads => getDownloadsPath env
  | .documents => getDocumentsPath env
  | .desktop => getDesktopPath env

inductive Action where
  | openBrowser (url : String)
  | openTerminal
  | openFolderOf (f : Folder)
  | openApplicationNamed (appName : String)
  | openTextEditorApp
  | showTime
  | showSystemInfo
deriving DecidableEq

def runAction (a : Action) (env : Env) (w : World) : World × Bool :=
  match a with
  | .openBrowser url => openBrowser url env w
  | .openTerminal => openTerminal env.home env w
  | .openFolderOf f => openFolder (folderPathOf f env) env w
  | .openApplicationNamed n => openApplication n env w
  | .openTextEditorApp => openApplication (getTextEditor env) env w
  | .showTime => showTime env w
  | .showSystemInfo => showSystemInfo env w

/-! ## Voice response system (`part_000` lines 134-253) -/

/-- Negation of the credential check
`!elevenLabsApiKey || elevenLabsApiKey === 'your-api-key-here'`
(absent keys and the empty string are falsy in JS). -/
def hasValidApiKey (config : Config) : Bool :=
  match config.elevenLabsApiKey with
  | none => false
  | some k => !(k == "" || k == "your-api-key-here")

/-- Cache-file path of a text: `path.join(CACHE_DIR, cacheKey + '.mp3')`. -/
def cachePath (env : Env) (text : String) : String :=
  CACHE_DIR env ++ "/" ++ cacheKey text ++ ".mp3"

/-- The `mkdirSync` guard at `part_000` lines 153-155. -/
def ensureCacheDir (env : Env) (w : World) : World :=
  if w.dirs.contains (CACHE_DIR env) then w
  else { w with dirs := w.dirs ++ [CACHE_DIR env] }

/-- `playAudio`: build the platform player command, spawn it, swallow
playback errors.  The played file path is also recorded for observation. -/
def playAudio (filePath : String) (env : Env) (w : World) : World :=
  let command :=
    if isMac env then "afplay \"" ++ filePath ++ "\""
    else if isWindows env then
      "powershell -c \"(New-Object Media.SoundPlayer \x27" ++ filePath ++
        "\x27).PlaySync()\""
    else
      "which mpg123 > /dev/null 2>&1 && mpg123 -q \"" ++ filePath ++
        "\" || which aplay > /dev/null 2>&1 && aplay \"" ++ filePath ++
        "\" || which paplay > /dev/null 2>&1 && paplay \"" ++ filePath ++ "\""
  let w := { w with spawned := w.spawned ++ [command],
                    played := w.played ++ [filePath] }
  if env.execOk command then w
  else log w "🔇 Audio playback not available on this system"

/-- `speakResponse`: voice-disabled and missing-credential short circuits,
cache lookup, one API request per miss, cache write, playback.  The `try`
wrapper in the source makes the function total; the API-error rejection from
`getElevenLabsAudio` lands in the `catch`, which prints the error and falls
back to printing the text.  The text argument is recorded in `spoken`
(instrumentation). -/
def speakResponse (text : String) (config : Config) (env : Env) (w : World) :
    World :=
  let w := { w with spoken := w.spoken ++ [text] }
  if config.voiceEnabled = some false then
    log w ("🔇 Voice disabled: \"" ++ text ++ "\"")
  else if !(hasValidApiKey config) then
    log (log w ("💬 \"" ++ text ++ "\""))
      "ℹ️  Add ElevenLabs API key for voice responses: voice-cli --setup"
  else
    let w := log w ("🗣️  \"" ++ text ++ "\"")
    let w := ensureCacheDir env w
    if (w.files.lookup (cachePath env text)).isSome then
      playAudio (cachePath env text) env (log w "🎧 Playing cached response...")
    else
      let w := log w "🎤 Generating voice response..."
      let w := { w with netRequests := w.netRequests ++ [text] }
      if (env.api text).1 = 200 then
        playAudio (cachePath env text) env
          (writeFile (cachePath env text) (env.api text).2 w)
      else
        log (log w ("❌ Voice response error: ElevenLabs API error: " ++
          toString (env.api text).1)) ("💬 \"" ++ text ++ "\"")

/-- Node error message of `crypto.Hash.update(undefined)`. -/
def hashUpdateUndefinedMsg : String :=
  "The \"data\" argument must be of type string or an instance of Buffer, TypedArray, or DataView. Received undefined"

/-- Behaviour of `speakResponse(undefined, config)`, which the dispatcher
reaches when the looked-up value is an inherited `Object.prototype` property
(whose `.response` is `undefined`): the two short circuits print
`"undefined"`; on the credentialed path `hash.update(undefined)` throws, the
`catch` prints the error and the text fallback. -/
def speakResponseUndefined (config : Config) (env : Env) (w : World) : World :=
  let w := { w with spoken := w.spoken ++ ["undefined"] }
  if config.voiceEnabled = some false then
    log w "🔇 Voice disabled: \"undefined\""
  else if !(hasValidApiKey config) then
    log (log w "💬 \"undefined\"")
      "ℹ️  Add ElevenLabs API key for voice responses: voice-cli --setup"
  else
    let w := log w "🗣️  \"undefined\""
    let w := ensureCacheDir env w
    log (log w ("❌ Voice response error: " ++ hashUpdateUndefinedMsg))
      "💬 \"undefined\""

/-! ## The command registry (`part_000` lines 32-97)

`VOICE_COMMANDS` is a plain JS object literal evaluated once at module load.
The spoken-confirmation string of `'what time is it'` is the template
literal `` It's ${new Date().toLocaleTimeString()} ``, so it captures the
time at registry construction; the registry is therefore parameterized here
by that start-up time string `t0`. -/

structure CommandEntry where
  description : String
  response : String
  action : Action
deriving DecidableEq

def VOICE_COMMANDS (t0 : String) : List (String × CommandEntry) :=
  [("open browser",
    { description := "Opens your default web browser",
      response := "Opening your browser now!",
      action := .openBrowser "" }),
   ("open google",
    { description := "Opens Google in your browser",
      response := "Taking you to Google!",
      action := .openBrowser "https://google.com" }),
   ("open terminal",
    { description := "Opens a new terminal window",
      response := "Opening a new terminal for you!",
      action := .openTerminal }),
   ("open command prompt",
    { description := "Opens command prompt (Windows) or terminal (Mac/Linux)",
      response := "Opening command prompt!",
      action := .openTerminal }),
   ("open downloads",
    { description := "Opens your downloads folder",
      response := "Opening your downloads folder!",
      action := .openFolderOf .downloads }),
   ("open documents",
    { description := "Opens your documents folder",
      response := "Opening your documents folder!",
      action := .openFolderOf .documents }),
   ("open desktop",
    { description := "Opens your desktop folder",
      response := "Opening your desktop!",
      action := .openFolderOf .desktop }),
   ("open calculator",
    { description := "Opens the calculator app",
      response := "Opening calculator for you!",
      action := .openApplicationNamed "Calculator" }),
   ("open notepad",
    { description := "Opens text editor (Notepad/TextEdit)",
      response := "Opening your text editor!",
      action := .openTextEditorApp }),
   ("what time is it",
    { description := "Shows current time",
      response := "It\x27s " ++ t0,
      action := .showTime }),
   ("system info",
    { description := "Shows basic system information",
      response := "Here is your system information",
      action := .showSystemInfo })]

/-! ## JS property lookup

`VOICE_COMMANDS[normalizedCommand]` is not a map lookup: an object literal
inherits from `Object.prototype`, so a key such as `"constructor"` or
`"__proto__"` (both already lowercase) yields a truthy inherited value that
is not a command entry. -/

/-- The enumerable-or-not own property names of `Object.prototype` in Node. -/
def OBJECT_PROTOTYPE_KEYS : List String :=
  ["constructor", "hasOwnProperty", "isPrototypeOf", "propertyIsEnumerable",
   "toLocaleString", "toString", "valueOf", "__defineGetter__",
   "__defineSetter__", "__lookupGetter__", "__lookupSetter__", "__proto__"]

/-- Result of `obj[key]` on an object literal: an own entry, an inherited
`Object.prototype` property (truthy, but with `description`, `response` and
`execute` all `undefined`), or `undefined`. -/
inductive JsProp (α : Type) where
  | entry (e : α)
  | protoObject
  | undefinedValue
deriving DecidableEq

def jsGet {A : Type} (obj : List (String × A)) (key : String) : JsProp A :=
  match obj.lookup key with
  | some e => .entry e
  | none => if OBJECT_PROTOTYPE_KEYS.contains key then .protoObject else .undefinedValue

/-- What `VOICE_COMMANDS[commandText.toLowerCase().trim()]` resolves to. -/
def dispatchResolution (t0 input : String) : JsProp CommandEntry :=
  jsGet (VOICE_COMMANDS t0) (normalize input)

/-! ## Dispatch and CLI surface of `part_000` (lines 348-556) -/

/-- One line of the registry listing. -/
def cmdLine (pe : String × CommandEntry) : String :=
  "   \"" ++ pe.1 ++ "\" - " ++ pe.2.description

/-- `showAvailableCommands` (note: the header and tip strings in `part_000`
contain literal backslash-n, from `\\n` inside a template literal). -/
def showAvailableCommands (t0 : String) (w : World) : World :=
  let w := log w "\\n🎙️  Available Voice Commands:\\n"
  let w := (VOICE_COMMANDS t0).foldl (fun w pe => log w (cmdLine pe)) w
  log w "\\n💡 Tip: Commands are case-insensitive"

/-- `executeVoiceCommand`: normalize, look the input up in the registry
object, and either run the entry (speaking its response, then `Done!` or an
apology) or report an unknown command and list the registry.  On an
inherited prototype property the source prints `📋 undefined`, calls
`speakResponse(undefined, config)`, and then `command.execute()` throws a
`TypeError`. -/
def executeVoiceCommand (commandText : String) (config : Config) (t0 : String)
    (env : Env) (w : World) : World × JsOutcome :=
  let w := log w ("🗣️  Voice command: \"" ++ commandText ++ "\"")
  match dispatchResolution t0 commandText with
  | .entry command =>
    let w := log w ("📋 " ++ command.description)
    let w := speakResponse command.response config env w
    let r := runAction command.action env w
    if r.2 then
      (speakResponse "Done!" config env
        (log r.1 "🎉 Command completed successfully!"), .ok true)
    else
      (speakResponse "Sorry, there was an error with that command." config env
        r.1, .ok false)
  | .protoObject =>
    let w := log w "📋 undefined"
    let w := speakResponseUndefined config env w
    (w, .thrown "command.execute is not a function")
  | .undefinedValue =>
    let w := log w ("❓ Unknown command: \"" ++ commandText ++ "\"")
    let w := speakResponse "I didn\x27t understand that command. Try asking for help."
      config env w
    let w := log w "💡 Try one of these commands:"
    (showAvailableCommands t0 w, .ok false)

/-- `showHelp` prints one multi-line template literal. -/
def showHelp (w : World) : World :=
  log w ("\n🎤 Voice CLI v" ++ VERSION ++ " - Control your computer with voice commands\n\nUSAGE:\n  voice-cli                    Start interactive voice mode\n  voice-cli \"open browser\"     Execute a single voice command\n  voice-cli --list            Show all available commands\n  voice-cli --setup           Initial setup and configuration\n  voice-cli --help            Show this help message\n\nEXAMPLES:\n  voice-cli \"open terminal\"\n  voice-cli \"open downloads\"  \n  voice-cli \"what time is it\"\n\nVOICE RESPONSES:\n  Add your ElevenLabs API key during setup for AI voice responses!\n  Without API key, responses will be text-only.\n\nFor more information, visit: https://github.com/Alec-Hermesmeyer/voice-cli\n")

/-- Default config returned by `loadConfig` when the file is absent or
unreadable. -/
def defaultConfig : Config :=
  { voiceEnabled := some false,
    elevenLabsApiKey := some "your-api-key-here",
    voiceId := some DEFAULT_VOICE_ID }

/-- `loadConfig` (`part_000` lines 452-465): parse failure is caught and
logged, then the default config is returned. -/
def loadConfig (env : Env) (w : World) : Config × World :=
  match env.configFile with
  | .valid c => (c, w)
  | .absent => (defaultConfig, w)
  | .invalid => (defaultConfig,
      log w ("⚠️  Could not load config: " ++ env.parseErrMsg))

/-- The synchronous part of `setupConfiguration` (`part_000` lines 476-514):
the banner lines and the readline prompt.  The `rl.question` callback (which
saves the config) runs on a later event-loop turn, after `main` has
returned, and is outside this model. -/
def setupConfigurationStart (w : World) : World :=
  let w := log w "🔧 Voice CLI Setup - Enable AI Voice Responses"
  let w := log w "\n🎤 To enable voice responses, you\x27ll need an ElevenLabs API key:"
  let w := log w "   1. Sign up at https://elevenlabs.io (free tier available)"
  let w := log w "   2. Go to your profile and copy your API key"
  let w := log w "   3. Run this setup again with your API key\n"
  log w "Enter your ElevenLabs API key (or press Enter to skip): "

/-- `main` of `part_000` (lines 517-556) when invoked with at least one CLI
argument `firstArg :: rest` (the zero-argument interactive loop reads stdin
and is outside this model).  The config is loaded before the switch.  The
second component is `some msg` when the run ends in an uncaught error
(handled by `main().catch`, exit code 1), `none` on normal completion. -/
def mainRun (t0 firstArg : String) (rest : List String) (env : Env)
    (w : World) : World × Option String :=
  let cw := loadConfig env w
  if firstArg == "--help" || firstArg == "-h" then (showHelp cw.2, none)
  else if firstArg == "--setup" then (setupConfigurationStart cw.2, none)
  else if firstArg == "--list" || firstArg == "--commands" then
    (showAvailableCommands t0 cw.2, none)
  else if firstArg == "--version" || firstArg == "-v" then
    (log cw.2 ("Voice CLI v" ++ VERSION), none)
  else
    let r := executeVoiceCommand (String.intercalate " " (firstArg :: rest))
      cw.1 t0 env cw.2
    (r.1, match r.2 with | .ok _ => none | .thrown m => some m)

end VoiceCli

/-! ## The earlier text-only variant (`part_001`, v1.0.0)

Same platform helpers and actions; the registry entries have no spoken
response, dispatch never speaks, and `main` does not load the config. -/

namespace VoiceCli.Basic

def VERSION : String := "1.0.0"

structure BasicEntry where
  description : String
  action : Action
deriving DecidableEq

def BASIC_COMMANDS : List (String × BasicEntry) :=
  [("open browser",
    { description := "Opens your default web browser", action := .openBrowser "" }),
   ("open google",
    { description := "Opens Google in your browser",
      action := .openBrowser "https://google.com" }),
   ("open terminal",
    { description := "Opens a new terminal window", action := .openTerminal }),
   ("open command prompt",
    { description := "Opens command prompt (Windows) or terminal (Mac/Linux)",
      action := .openTerminal }),
   ("open downloads",
    { description := "Opens your downloads folder",
      action := .openFolderOf .downloads }),
   ("open documents",
    { description := "Opens your documents folder",
      action := .openFolderOf .documents }),
   ("open desktop",
    { description := "Opens your desktop folder", action := .openFolderOf .desktop }),
   ("open calculator",
    { description := "Opens the calculator app",
      action := .openApplicationNamed "Calculator" }),
   ("open notepad",
    { description := "Opens text editor (Notepad/TextEdit)",
      action := .openTextEditorApp }),
   ("what time is it",
    { description := "Shows current time", action := .showTime }),
   ("system info",
    { description := "Shows basic system information", action := .showSystemInfo })]

/-- What `VOICE_COMMANDS[commandText.toLowerCase().trim()]` resolves to in
`part_001`. -/
def basicResolution (input : String) : JsProp BasicEntry :=
  jsGet BASIC_COMMANDS (normalize input)

def basicCmdLine (pe : String × BasicEntry) : String :=
  "   \"" ++ pe.1 ++ "\" - " ++ pe.2.description

/-- `showAvailableCommands` of `part_001` (real newlines here). -/
def showCommands (w : World) : World :=
  let w := log w "\n🎙️  Available Voice Commands:\n"
  let w := BASIC_COMMANDS.foldl (fun w pe => log w (basicCmdLine pe)) w
  log w "\n💡 Tip: Commands are case-insensitive"

/-- `executeVoiceCommand` of `part_001` (lines 210-232). -/
def execute (commandText : String) (env : Env) (w : World) : World × JsOutcome :=
  let w := log w ("🗣️  Voice command: \"" ++ commandText ++ "\"")
  match basicResolution commandText with
  | .entry command =>
    let w := log w ("📋 " ++ command.description)
    let r := runAction command.action env w
    if r.2 then (log r.1 "🎉 Command completed successfully!", .ok true)
    else (r.1, .ok false)
  | .protoObject =>
    (log w "📋 undefined", .thrown "command.execute is not a function")
  | .undefinedValue =>
    let w := log w ("❓ Unknown command: \"" ++ commandText ++ "\"")
    let w := log w "💡 Try one of these commands:"
    (showCommands w, .ok false)

def showBasicHelp (w : World) : World :=
  log w ("\n🎤 Voice CLI v" ++ VERSION ++ " - Control your computer with voice commands\n\nUSAGE:\n  voice-cli                    Start interactive voice mode\n  voice-cli \"open browser\"     Execute a single voice command\n  voice-cli --list            Show all available commands\n  voice-cli --setup           Initial setup and configuration\n  voice-cli --help            Show this help message\n\nEXAMPLES:\n  voice-cli \"open terminal\"\n  voice-cli \"open downloads\"\n  voice-cli \"what time is it\"\n\nFor more information, visit: https://github.com/yourcompany/voice-cli\n")

/-- Output of `JSON.stringify(config, null, 2)` for the config object built
by `part_001`'s `setupConfiguration` (braces written as hex escapes). -/
def basicConfigJson (platform isoDate : String) : String :=
  "\x7b\n  \"version\": \"1.0.0\",\n  \"platform\": \"" ++ platform ++
    "\",\n  \"setupDate\": \"" ++ isoDate ++
    "\",\n  \"preferences\": \x7b\n    \"autoStart\": false,\n    \"verboseOutput\": true\n  \x7d\n\x7d"

/-- `setupConfiguration` of `part_001` (lines 312-329), fully synchronous:
banner, build config (reading the clock for `setupDate`), save it, report. -/
def setupBasic (env : Env) (w : World) : World :=
  let w := log w "🔧 Voice CLI Setup"
  let w := log w "⚠️  Note: This is a basic version. Advanced features like real voice recognition"
  let w := log w "   can be added later with speech-to-text services."
  let content := basicConfigJson env.platform (env.isoAt w.ticks)
  let w := { w with ticks := w.ticks + 1 }
  let w := writeFile (CONFIG_FILE env) content w
  let w := log w ("✅ Configuration saved to " ++ CONFIG_FILE env)
  log w "✅ Setup complete! Try: voice-cli \"open browser\""

/-- `main` of `part_001` (lines 332-370) with at least one CLI argument; no
config load before the switch. -/
def mainBasic (firstArg : String) (rest : List String) (env : Env)
    (w : World) : World × Option String :=
  if firstArg == "--help" || firstArg == "-h" then (showBasicHelp w, none)
  else if firstArg == "--setup" then (setupBasic env w, none)
  else if firstArg == "--list" || firstArg == "--commands" then
    (showCommands w, none)
  else if firstArg == "--version" || firstArg == "-v" then
    (log w ("Voice CLI v" ++ VERSION), none)
  else
    let r := execute (String.intercalate " " (firstArg :: rest)) env w
    (r.1, match r.2 with | .ok _ => none | .thrown m => some m)

end VoiceCli.Basic

namespace VoiceCli

/-! ## Concrete fixtures for witnesses and counterexamples -/

/-- A concrete Linux environment: every spawned command succeeds, the API
answers 200 with body "AUDIO", the config file is absent. -/
def env0 : Env :=
  { platform := "linux", home := "/home/user", arch := "x64",
    nodeVersion := "v18.0.0", execOk := fun _ => true,
    execErrMsg := fun _ => "spawn failed", api := fun _ => (200, "AUDIO"),
    timeAt := fun n => "1/1/2025, 12:00:0" ++ toString n ++ " PM",
    isoAt := fun _ => "2025-01-01T00:00:00.000Z",
    configFile := .absent, parseErrMsg := "Unexpected token u in JSON at position 0" }

/-- The empty starting world. -/
def w0 : World := {}

/-- A config with voice enabled and a (syntactically) valid API key. -/
def cfgVoice : Config :=
  { voiceEnabled := some true, elevenLabsApiKey := some "sk-test-key",
    voiceId := none }

/-! ## Frame lemmas -/

@[simp] lemma log_files (w : World) (s : String) : (log w s).files = w.files := rfl

@[simp] lemma log_dirs (w : World) (s : String) : (log w s).dirs = w.dirs := rfl

@[simp] lemma log_output (w : World) (s : String) :
    (log w s).output = w.output ++ [s] := rfl

@[simp] lemma log_execd (w : World) (s : String) : (log w s).execd = w.execd := rfl

@[simp] lemma log_spawned (w : World) (s : String) :
    (log w s).spawned = w.spawned := rfl

@[simp] lemma log_played (w : World) (s : String) :
    (log w s).played = w.played := rfl

@[simp] lemma log_netRequests (w : World) (s : String) :
    (log w s).netRequests = w.netRequests := rfl

@[simp] lemma log_spoken (w : World) (s : String) : (log w s).spoken = w.spoken := rfl

@[simp] lemma log_ticks (w : World) (s : String) : (log w s).ticks = w.ticks := rfl

lemma speakResponse_spoken (t : String) (c : Config) (e : Env) (w : World) :
    (speakResponse t c e w).spoken = w.spoken ++ [t] := by
  simp only [speakResponse, playAudio, ensureCacheDir, writeFile, log]
  repeat' split
  all_goals rfl

lemma speakResponse_ticks (t : String) (c : Config) (e : Env) (w : World) :
    (speakResponse t c e w).ticks = w.ticks := by
  simp only [speakResponse, playAudio, ensureCacheDir, writeFile, log]
  repeat' split
  all_goals rfl

lemma speakResponse_execd (t : String) (c : Config) (e : Env) (w : World) :
    (speakResponse t c e w).execd = w.execd := by
  simp only [speakResponse, playAudio, ensureCacheDir, writeFile, log]
  repeat' split
  all_goals rfl

lemma speakResponse_output_ext (t : String) (c : Config) (e : Env) (w : World) :
    w.output <+: (speakResponse t c e w).output := by
  simp only [speakResponse, playAudio, ensureCacheDir, writeFile, log]
  repeat' split
  all_goals simp [List.append_assoc, List.prefix_append]

lemma speakResponse_mem_output {x : String} (t : String) (c : Config) (e : Env)
    (w : World) (h : x ∈ w.output) : x ∈ (speakResponse t c e w).output :=
  (speakResponse_output_ext t c e w).subset h

lemma foldl_log_output {α : Type} (f : α → String) (l : List α) (w : World) :
    (l.foldl (fun w x => log w (f x)) w).output = w.output ++ l.map f := by
  induction l generalizing w with
  | nil => simp
  | cons x xs ih =>
    rw [List.foldl_cons, ih]
    simp [List.append_assoc]

lemma foldl_log_execd {α : Type} (f : α → String) (l : List α) (w : World) :
    (l.foldl (fun w x => log w (f x)) w).execd = w.execd := by
  induction l generalizing w with
  | nil => rfl
  | cons x xs ih =>
    rw [List.foldl_cons, ih]
    rfl

lemma showAvailableCommands_output (t0 : String) (w : World) :
    (showAvailableCommands t0 w).output =
      w.output ++ ["\\n🎙️  Available Voice Commands:\\n"] ++
        (VOICE_COMMANDS t0).map cmdLine ++
        ["\\n💡 Tip: Commands are case-insensitive"] := by
  simp [showAvailableCommands, foldl_log_output, List.append_assoc]

lemma showAvailableCommands_execd (t0 : String) (w : World) :
    (showAvailableCommands t0 w).execd = w.execd := by
  simp [showAvailableCommands, foldl_log_execd]

/-! ## Cache-key facts (for C7) -/

/-- Lowercase hexadecimal digit predicate. -/
def isHexDigitChar (c : Char) : Bool :=
  (48 ≤ c.toNat && c.toNat ≤ 57) || (97 ≤ c.toNat && c.toNat ≤ 102)

lemma md5Bytes_length (msg : List Nat) : (md5Bytes msg).length = 16 := by
  simp [md5Bytes, wordBytes]

lemma flatMap_byteHex_length (l : List Nat) :
    (l.flatMap byteHex).length = 2 * l.length := by
  induction l with
  | nil => rfl
  | cons b bs ih =>
    simp [List.flatMap_cons, byteHex, ih]
    omega

lemma hexChar_hex : ∀ n, n < 16 → isHexDigitChar (hexChar n) = true := by decide

lemma hexChar_mod_hex (x : Nat) : isHexDigitChar (hexChar (x % 16)) = true :=
  hexChar_hex _ (Nat.mod_lt _ (by norm_num))

lemma flatMap_byteHex_all_hex (l : List Nat) :
    (l.flatMap byteHex).all isHexDigitChar = true := by
  induction l with
  | nil => rfl
  | cons b bs ih =>
    simp [List.flatMap_cons, List.all_append, byteHex, ih, hexChar_mod_hex]

lemma all_take {p : Char → Bool} {l : List Char} (h : l.all p = true) (n : Nat) :
    (l.take n).all p = true := by
  rw [List.all_eq_true] at *
  exact fun x hx => h x (List.take_subset n l hx)

/-! ## Claim theorems -/

/-- C7: the cache key is a deterministic function of the text alone (it takes
no other argument), always 10 characters long, all of them lowercase
hexadecimal digits: the truncation of the MD5 hex digest to 10 characters. -/
theorem voice_C7_cache_key_fixed_length :
    ∀ t : String, (cacheKey t).length = 10 ∧
      (cacheKeyChars t).all isHexDigitChar = true ∧
      ∀ t2 : String, t = t2 → cacheKey t = cacheKey t2 := by
  intro t
  refine ⟨?_, ?_, fun t2 h => h ▸ rfl⟩
  · show (cacheKeyChars t).length = 10
    simp only [cacheKeyChars, List.length_take, flatMap_byteHex_length,
      md5Bytes_length]
    rfl
  · exact all_take (flatMap_byteHex_all_hex _) 10

/-- C7 witness: instantiation at a concrete text. -/
theorem voice_C7_witness :
    (cacheKey "Opening your browser now!").length = 10 ∧
      cacheKey "Opening your browser now!" = cacheKey "Opening your browser now!" :=
  ⟨(voice_C7_cache_key_fixed_length "Opening your browser now!").1,
   (voice_C7_cache_key_fixed_length "Opening your browser now!").2.2 _ rfl⟩

/-- C3: when the cache file for a text's key already exists, `speakResponse`
sends no API request and leaves the file system unchanged, and (on the
speaking path, i.e. voice not disabled and a valid credential) the file it
plays is exactly the pre-existing cached file. -/
theorem voice_C3_cache_hit_no_network (text : String) (config : Config)
    (env : Env) (w : World)
    (hcache : (w.files.lookup (cachePath env text)).isSome = true) :
    (speakResponse text config env w).netRequests = w.netRequests ∧
    (speakResponse text config env w).files = w.files ∧
    (config.voiceEnabled ≠ some false → hasValidApiKey config = true →
      (speakResponse text config env w).played = w.played ++ [cachePath env text]) := by
  simp only [speakResponse, playAudio, ensureCacheDir, writeFile, log]
  repeat' split
  all_goals simp_all

/-- C3 witness: a concrete world holding the cached file. -/
theorem voice_C3_witness :
    ((({ files := [(cachePath env0 "Hello there", "OLD-AUDIO")] } : World).files.lookup
        (cachePath env0 "Hello there")).isSome = true) ∧
    (speakResponse "Hello there" cfgVoice env0
        { files := [(cachePath env0 "Hello there", "OLD-AUDIO")] }).netRequests = [] ∧
    (speakResponse "Hello there" cfgVoice env0
        { files := [(cachePath env0 "Hello there", "OLD-AUDIO")] }).played =
      [cachePath env0 "Hello there"] := by
  have hc : ((({ files := [(cachePath env0 "Hello there", "OLD-AUDIO")] } : World)).files.lookup
      (cachePath env0 "Hello there")).isSome = true := by
    simp [List.lookup]
  have h := voice_C3_cache_hit_no_network "Hello there" cfgVoice env0
    { files := [(cachePath env0 "Hello there", "OLD-AUDIO")] } hc
  exact ⟨hc, h.1, h.2.2 (by decide) (by decide)⟩

/-- C4: first-time text (no cache file), voice not disabled, valid key, API
answers 200 with some body: the body is written to the cache file for the
text's key and that file is played (and exactly one request was sent).  The
claim's instance is `body = "ABC"`. -/
theorem voice_C4_cache_fill_and_play (text : String) (config : Config)
    (env : Env) (w : World) (body : String)
    (h1 : config.voiceEnabled ≠ some false)
    (h2 : hasValidApiKey config = true)
    (h3 : (w.files.lookup (cachePath env text)).isSome = false)
    (h4 : env.api text = (200, body)) :
    (speakResponse text config env w).files.lookup (cachePath env text) = some body ∧
    (speakResponse text config env w).played = w.played ++ [cachePath env text] ∧
    (speakResponse text config env w).netRequests = w.netRequests ++ [text] := by
  simp only [speakResponse, playAudio, ensureCacheDir, writeFile, log]
  repeat' split
  all_goals simp_all [List.lookup]

/-- C4 witness: the "ABC" scenario of the claim. -/
theorem voice_C4_witness :
    (speakResponse "Done!" cfgVoice { env0 with api := fun _ => (200, "ABC") }
        w0).files.lookup (cachePath { env0 with api := fun _ => (200, "ABC") } "Done!") =
      some "ABC" ∧
    (speakResponse "Done!" cfgVoice { env0 with api := fun _ => (200, "ABC") }
        w0).played = [cachePath { env0 with api := fun _ => (200, "ABC") } "Done!"] := by
  have h := voice_C4_cache_fill_and_play "Done!" cfgVoice
    { env0 with api := fun _ => (200, "ABC") } w0 "ABC" (by decide) (by decide)
    (by simp [w0]) rfl
  exact ⟨h.1, h.2.1⟩

/-- C5: on a non-200 API response `speakResponse` completes (it is a total
function here because the source wraps its body in try/catch), prints the
literal text as fallback after the API-error report, and writes no cache
file: the file system is unchanged and nothing is played. -/
theorem voice_C5_api_error_fallback (text : String) (config : Config)
    (env : Env) (w : World) (status : Nat) (body : String)
    (h1 : config.voiceEnabled ≠ some false)
    (h2 : hasValidApiKey config = true)
    (h3 : (w.files.lookup (cachePath env text)).isSome = false)
    (h4 : env.api text = (status, body))
    (h5 : status ≠ 200) :
    (speakResponse text config env w).files = w.files ∧
    (speakResponse text config env w).played = w.played ∧
    (speakResponse text config env w).output = w.output ++
      ["🗣️  \"" ++ text ++ "\"", "🎤 Generating voice response...",
       "❌ Voice response error: ElevenLabs API error: " ++ toString status,
       "💬 \"" ++ text ++ "\""] := by
  simp only [speakResponse, playAudio, ensureCacheDir, writeFile, log]
  repeat' split
  all_goals simp_all [List.append_assoc]

/-- C5 witness: a concrete 401 response. -/
theorem voice_C5_witness :
    (speakResponse "Done!" cfgVoice { env0 with api := fun _ => (401, "") }
        w0).files = [] ∧
    (speakResponse "Done!" cfgVoice { env0 with api := fun _ => (401, "") }
        w0).output =
      ["🗣️  \"Done!\"", "🎤 Generating voice response...",
       "❌ Voice response error: ElevenLabs API error: 401", "💬 \"Done!\""] := by
  have h := voice_C5_api_error_fallback "Done!" cfgVoice
    { env0 with api := fun _ => (401, "") } w0 401 "" (by decide) (by decide)
    (by simp [w0]) rfl (by decide)
  exact ⟨h.1, h.2.2⟩

/-- C6: voice not disabled but no valid credential: `speakResponse` only
prints the literal text and the setup hint (plus the `spoken`
instrumentation); in particular no request is sent and no file is written. -/
theorem voice_C6_no_credential (text : String) (config : Config) (env : Env)
    (w : World)
    (h1 : config.voiceEnabled ≠ some false)
    (h2 : hasValidApiKey config = false) :
    speakResponse text config env w =
      { w with spoken := w.spoken ++ [text],
               output := w.output ++ ["💬 \"" ++ text ++ "\"",
                 "ℹ️  Add ElevenLabs API key for voice responses: voice-cli --setup"] } ∧
    (speakResponse text config env w).netRequests = w.netRequests ∧
    (speakResponse text config env w).files = w.files := by
  simp only [speakResponse, playAudio, ensureCacheDir, writeFile, log]
  repeat' split
  all_goals simp_all [List.append_assoc]

/-- C6 witness: the placeholder-key config from `--setup` skipping. -/
theorem voice_C6_witness :
    speakResponse "Opening your browser now!"
        { voiceEnabled := some true, elevenLabsApiKey := some "your-api-key-here" }
        env0 w0 =
      { w0 with spoken := ["Opening your browser now!"],
                output := ["💬 \"Opening your browser now!\"",
                  "ℹ️  Add ElevenLabs API key for voice responses: voice-cli --setup"] } :=
  (voice_C6_no_credential "Opening your browser now!"
    { voiceEnabled := some true, elevenLabsApiKey := some "your-api-key-here" }
    env0 w0 (by decide) (by decide)).1

/-- C8: `openFolder` checks existence proactively.  On a missing path it
prints "Folder not found", returns `false`, and runs no external command
(`execd` and `spawned` are untouched); on an existing path it runs the
platform open command, and on a zero exit status logs
"Opened folder: path" and returns `true`. -/
theorem voice_C8_open_folder (folderPath : String) (env : Env) (w : World) :
    (existsSync w folderPath = false →
      openFolder folderPath env w =
        (log w ("❌ Folder not found: " ++ folderPath), false)) ∧
    (existsSync w folderPath = true →
      env.execOk (openFolderCommand env folderPath) = true →
      openFolder folderPath env w =
        (log { w with execd := w.execd ++ [openFolderCommand env folderPath] }
          ("✅ Opened folder: " ++ folderPath), true)) := by
  constructor
  · intro h
    simp [openFolder, h]
  · intro h1 h2
    simp [openFolder, executeCommand, h1, h2]
    rfl

/-- C8 witness: a missing and a present downloads folder on the concrete
Linux environment. -/
theorem voice_C8_witness :
    openFolder "/home/user/Downloads" env0 w0 =
      (log w0 "❌ Folder not found: /home/user/Downloads", false) ∧
    openFolder "/home/user/Downloads" env0 { w0 with dirs := ["/home/user/Downloads"] } =
      (log { w0 with dirs := ["/home/user/Downloads"], execd := ["xdg-open \"/home/user/Downloads\""] } "✅ Opened folder: /home/user/Downloads", true) := by
  constructor
  · exact (voice_C8_open_folder "/home/user/Downloads" env0 w0).1 (by decide)
  · exact (voice_C8_open_folder "/home/user/Downloads" env0
      { w0 with dirs := ["/home/user/Downloads"] }).2 (by decide) (by decide)

lemma mem_output_log {x : String} {w : World} (s : String) (h : x ∈ w.output) :
    x ∈ (log w s).output := by
  rw [log_output]
  exact List.mem_append_left _ h

lemma mem_output_log_self (w : World) (s : String) : s ∈ (log w s).output := by
  simp [log]

lemma mem_output_show {x : String} (t0 : String) {w : World} (h : x ∈ w.output) :
    x ∈ (showAvailableCommands t0 w).output := by
  rw [showAvailableCommands_output]
  exact List.mem_append_left _ (List.mem_append_left _ (List.mem_append_left _ h))

lemma cmdline_mem_show {pe : String × CommandEntry} {t0 : String} (w : World)
    (hpe : pe ∈ VOICE_COMMANDS t0) :
    cmdLine pe ∈ (showAvailableCommands t0 w).output := by
  rw [showAvailableCommands_output]
  exact List.mem_append_left _
    (List.mem_append_right _ (List.mem_map_of_mem _ hpe))

/-- Soundness of association-list lookup under distinct keys. -/
lemma lookup_of_mem {A : Type} {l : List (String × A)} {p : String} {e : A}
    (hnodup : (l.map Prod.fst).Nodup) (hmem : (p, e) ∈ l) :
    l.lookup p = some e := by
  induction l with
  | nil => cases hmem
  | cons kv rest ih =>
    obtain ⟨k, v⟩ := kv
    simp only [List.map_cons, List.nodup_cons] at hnodup
    rcases List.mem_cons.mp hmem with h | h
    · rw [Prod.mk.injEq] at h
      obtain ⟨rfl, rfl⟩ := h
      simp [List.lookup]
    · have hne : (p == k) = false := by
        refine beq_eq_false_iff_ne.mpr ?_
        rintro rfl
        exact hnodup.1 (List.mem_map_of_mem Prod.fst h)
      simp only [List.lookup, hne]
      exact ih hnodup.2 h

/-- The registered phrases, in registry order (identical in both scripts). -/
def registryKeys : List String :=
  ["open browser", "open google", "open terminal", "open command prompt",
   "open downloads", "open documents", "open desktop", "open calculator",
   "open notepad", "what time is it", "system info"]

lemma voiceKeys (t0 : String) :
    (VOICE_COMMANDS t0).map Prod.fst = registryKeys := rfl

lemma basicKeys : Basic.BASIC_COMMANDS.map Prod.fst = registryKeys := rfl

/-- Every registered phrase is already lowercase and trimmed. -/
lemma normalize_keys : ∀ q ∈ registryKeys, normalize q = q := by decide

lemma registryKeys_nodup : registryKeys.Nodup := by decide

/-- C1: for every registered phrase and every input equal to it up to letter
case and surrounding whitespace, dispatch resolution (normalize with
lowercase + trim, then exact lookup) finds the same command entry as
dispatching the phrase itself — in both scripts. -/
theorem voice_C1_case_insensitive_dispatch :
    (∀ (t0 p : String) (e : CommandEntry), (p, e) ∈ VOICE_COMMANDS t0 →
      ∀ s : String, normalize s = normalize p →
        dispatchResolution t0 s = .entry e ∧ dispatchResolution t0 p = .entry e) ∧
    (∀ (p : String) (e : Basic.BasicEntry), (p, e) ∈ Basic.BASIC_COMMANDS →
      ∀ s : String, normalize s = normalize p →
        Basic.basicResolution s = .entry e ∧ Basic.basicResolution p = .entry e) := by
  constructor
  · intro t0 p e hmem s hs
    have hnp : normalize p = p :=
      normalize_keys p (voiceKeys t0 ▸ List.mem_map_of_mem Prod.fst hmem)
    have hlook : (VOICE_COMMANDS t0).lookup p = some e :=
      lookup_of_mem (by rw [voiceKeys t0]; exact registryKeys_nodup) hmem
    have h2 : jsGet (VOICE_COMMANDS t0) p = .entry e := by simp [jsGet, hlook]
    exact ⟨by simp only [dispatchResolution]; rw [hs, hnp]; exact h2,
           by simp only [dispatchResolution]; rw [hnp]; exact h2⟩
  · intro p e hmem s hs
    have hnp : normalize p = p :=
      normalize_keys p (basicKeys ▸ List.mem_map_of_mem Prod.fst hmem)
    have hlook : Basic.BASIC_COMMANDS.lookup p = some e :=
      lookup_of_mem (by rw [basicKeys]; exact registryKeys_nodup) hmem
    have h2 : jsGet Basic.BASIC_COMMANDS p = .entry e := by simp [jsGet, hlook]
    exact ⟨by simp only [Basic.basicResolution]; rw [hs, hnp]; exact h2,
           by simp only [Basic.basicResolution]; rw [hnp]; exact h2⟩

/-- C1 witness: `"  OPEN Browser  "` resolves like `"open browser"`. -/
theorem voice_C1_witness :
    normalize "  OPEN Browser  " = normalize "open browser" ∧
    dispatchResolution "12:00:00 PM" "  OPEN Browser  " =
      .entry { description := "Opens your default web browser",
               response := "Opening your browser now!",
               action := .openBrowser "" } ∧
    Basic.basicResolution "  OPEN Browser  " =
      .entry { description := "Opens your default web browser",
               action := .openBrowser "" } := by
  refine ⟨by decide, ?_, ?_⟩
  · exact (voice_C1_case_insensitive_dispatch.1 "12:00:00 PM" "open browser"
      { description := "Opens your default web browser",
        response := "Opening your browser now!", action := .openBrowser "" }
      (by decide) "  OPEN Browser  " (by decide)).1
  · exact (voice_C1_case_insensitive_dispatch.2 "open browser"
      { description := "Opens your default web browser", action := .openBrowser "" }
      (by decide) "  OPEN Browser  " (by decide)).1

/-- C2 (amended): for every input whose normalized form matches no
registered phrase AND is not an inherited `Object.prototype` property name,
dispatch reports the input as unknown, prints every registered phrase with
its description, returns failure, and runs no action command. -/
theorem voice_C2_unknown_command (t0 input : String) (config : Config)
    (env : Env) (w : World)
    (hmiss : (VOICE_COMMANDS t0).lookup (normalize input) = none)
    (hproto : OBJECT_PROTOTYPE_KEYS.contains (normalize input) = false) :
    (executeVoiceCommand input config t0 env w).2 = .ok false ∧
    ("❓ Unknown command: \"" ++ input ++ "\"") ∈
      (executeVoiceCommand input config t0 env w).1.output ∧
    (∀ pe ∈ VOICE_COMMANDS t0,
      cmdLine pe ∈ (executeVoiceCommand input config t0 env w).1.output) ∧
    (executeVoiceCommand input config t0 env w).1.execd = w.execd := by
  have hres : dispatchResolution t0 input = .undefinedValue := by
    unfold dispatchResolution jsGet
    rw [hmiss, hproto]
    rfl
  refine ⟨?_, ?_, ?_, ?_⟩
  · simp only [executeVoiceCommand, hres]
  · simp only [executeVoiceCommand, hres]
    exact mem_output_show t0 (mem_output_log _
      (speakResponse_mem_output _ _ _ _ (mem_output_log_self _ _)))
  · intro pe hpe
    simp only [executeVoiceCommand, hres]
    exact cmdline_mem_show _ hpe
  · simp only [executeVoiceCommand, hres]
    rw [showAvailableCommands_execd, log_execd, speakResponse_execd, log_execd,
      log_execd]

/-- C2 witness for the amended statement: a garden-variety unknown input. -/
theorem voice_C2_witness :
    (VOICE_COMMANDS "12:00:00 PM").lookup (normalize "Open the pod bay doors") = none ∧
    (executeVoiceCommand "Open the pod bay doors" {} "12:00:00 PM" env0 w0).2 =
      .ok false ∧
    ("❓ Unknown command: \"Open the pod bay doors\"") ∈
      (executeVoiceCommand "Open the pod bay doors" {} "12:00:00 PM" env0 w0).1.output := by
  have h := voice_C2_unknown_command "12:00:00 PM" "Open the pod bay doors" {}
    env0 w0 (by decide) (by decide)
  exact ⟨by decide, h.1, h.2.1⟩

/-- C2 counterexample to the claim as stated: the input `"constructor"`
normalizes to itself and matches no registered phrase, yet dispatch does not
report it as unknown — the JS object lookup finds the inherited
`Object.prototype.constructor`, the code prints `📋 undefined` and then
`command.execute()` throws a `TypeError`, so no failure result is returned
and the registry listing is never printed. -/
theorem voice_C2_counterexample :
    (VOICE_COMMANDS "12:00:00 PM").lookup (normalize "constructor") = none ∧
    (executeVoiceCommand "constructor" {} "12:00:00 PM" env0 w0).2 =
      .thrown "command.execute is not a function" ∧
    ("❓ Unknown command: \"constructor\"") ∉
      (executeVoiceCommand "constructor" {} "12:00:00 PM" env0 w0).1.output := by
  refine ⟨by decide, by decide, by decide⟩

/-- C9 (amended): with `--version` or `-v` as first argument, no command is
dispatched and no setup runs; provided the config file is absent or valid
(so that loading prints no warning), the only effect is printing exactly the
version line.  In the earlier variant (`part_001`), which loads no config in
`main`, this holds unconditionally. -/
theorem voice_C9_version_only (t0 : String) (rest : List String) (env : Env)
    (w : World) (hcfg : env.configFile ≠ .invalid) :
    mainRun t0 "--version" rest env w = (log w ("Voice CLI v" ++ VERSION), none) ∧
    mainRun t0 "-v" rest env w = (log w ("Voice CLI v" ++ VERSION), none) ∧
    (∀ (rest2 : List String) (env2 : Env) (w2 : World),
      Basic.mainBasic "--version" rest2 env2 w2 =
        (log w2 ("Voice CLI v" ++ Basic.VERSION), none) ∧
      Basic.mainBasic "-v" rest2 env2 w2 =
        (log w2 ("Voice CLI v" ++ Basic.VERSION), none)) := by
  have hl : (loadConfig env w).2 = w := by
    rcases h : env.configFile with _ | _ | c
    · simp [loadConfig, h]
    · exact absurd h hcfg
    · simp [loadConfig, h]
  refine ⟨?_, ?_, fun rest2 env2 w2 => ⟨rfl, rfl⟩⟩
  · calc mainRun t0 "--version" rest env w
        = (log (loadConfig env w).2 ("Voice CLI v" ++ VERSION), none) := rfl
      _ = (log w ("Voice CLI v" ++ VERSION), none) := by rw [hl]
  · calc mainRun t0 "-v" rest env w
        = (log (loadConfig env w).2 ("Voice CLI v" ++ VERSION), none) := rfl
      _ = (log w ("Voice CLI v" ++ VERSION), none) := by rw [hl]

/-- C9 witness: concrete runs with an absent config file. -/
theorem voice_C9_witness :
    mainRun "12:00:00 PM" "--version" [] env0 w0 =
      (log w0 "Voice CLI v1.0.1", none) ∧
    Basic.mainBasic "--version" [] env0 w0 =
      (log w0 "Voice CLI v1.0.0", none) := by
  have h := voice_C9_version_only "12:00:00 PM" [] env0 w0 (by decide)
  exact ⟨h.1, (h.2.2 [] env0 w0).1⟩

/-- C9 counterexample to the claim as stated: when the config file exists
but fails to parse, `main` (which calls `loadConfig()` before the argument
switch in `part_000`) prints a config-load warning before the version line,
so the output is not exactly the version string. -/
theorem voice_C9_counterexample :
    (mainRun "12:00:00 PM" "--version" [] { env0 with configFile := .invalid }
        w0).1.output =
      ["⚠️  Could not load config: Unexpected token u in JSON at position 0",
       "Voice CLI v1.0.1"] ∧
    (mainRun "12:00:00 PM" "--version" [] { env0 with configFile := .invalid }
        w0).1.output ≠ w0.output ++ ["Voice CLI v" ++ VERSION] := by
  refine ⟨by decide, by decide⟩

/-- C10: the spoken confirmation of `"what time is it"` is fixed at registry
construction: in every world (hence at every dispatch in a run) the same
start-up string `It's t0` is passed to `speakResponse`, followed by
`Done!`, while the `showTime` action prints the clock as read at that
dispatch (`w.ticks`). -/
theorem voice_C10_time_response_fixed (t0 : String) (config : Config)
    (env : Env) (w : World) :
    (executeVoiceCommand "what time is it" config t0 env w).1.spoken =
      w.spoken ++ ["It\x27s " ++ t0, "Done!"] ∧
    ("🕐 Current time: " ++ env.timeAt w.ticks) ∈
      (executeVoiceCommand "what time is it" config t0 env w).1.output := by
  have hres : dispatchResolution t0 "what time is it" =
      .entry { description := "Shows current time",
               response := "It\x27s " ++ t0, action := .showTime } := rfl
  have hticks : (speakResponse ("It\x27s " ++ t0) config env
      (log (log w "🗣️  Voice command: \"what time is it\"")
        "📋 Shows current time")).ticks = w.ticks := by
    rw [speakResponse_ticks, log_ticks, log_ticks]
  constructor
  · simp [executeVoiceCommand, hres, runAction, showTime, speakResponse_spoken,
      List.append_assoc]
  · simp only [executeVoiceCommand, hres, runAction, showTime]
    rw [← hticks]
    exact speakResponse_mem_output _ _ _ _ (mem_output_log _
      (mem_output_log_self _ _))

end VoiceCli

/-- Validation of the MD5 embedding against the RFC 1321 test vector for
"abc" (digest 900150983cd24fb0d6963f7d28e17f72, truncated to 10 hex
characters by the cache-key construction). -/
example : VoiceCli.cacheKey "abc" = "900150983c" := by decide

/-- Validation of the JS normalization model. -/
example : VoiceCli.normalize "  OPEN Browser  " = "open browser" := by decide
